import Mathlib

/-!
Verification of the TicTacToe Algorand smart-contract logic
(`src/smart_contracts/tic_tac_toe_asc1.py` and
`src/smart_contracts/game_funds_escrow.py`).

The PyTeal approval program is embedded shallowly:

* the application's global state becomes the structure `GameState`
  (the five integer keys and four byte-slice keys; address-valued keys
  are `Option Nat`, `none` standing for "never written", since on the
  Algorand VM an unset byte key is the empty string, distinct from any
  real 32-byte sender address);
* each branch of the action dispatcher becomes a function from the
  pre-state and the transaction data to `Option GameState`, where
  `none` models a failed `Assert` / `Cond` fall-through / group-index
  error — the TEAL program rejects the whole call and nothing is
  written;
* payments in the atomic group become `PayTxn` values; the stateless
  escrow program `game_funds_escorw` becomes a `Bool`-valued predicate
  evaluated for every group payment spent from the escrow account.

Game status encoding, as in the source: 0 = active, 1 = X won,
2 = O won, 3 = tie.
-/

namespace TicTacToe

/-- A payment transaction of the atomic group, with the fields the two
programs inspect.  `assetCloseTo` and `rekeyTo` are addresses with `0`
standing for the zero address. -/
structure PayTxn where
  sender : Nat
  receiver : Nat
  amount : Nat
  fee : Nat
  assetCloseTo : Nat
  rekeyTo : Nat
deriving DecidableEq

/-- The global state of the application (class `AppVariables`). -/
structure GameState where
  playerXState : Nat
  playerOState : Nat
  playerXAddress : Option Nat
  playerOAddress : Option Nat
  playerTurnAddress : Option Nat
  fundsEscrowAddress : Option Nat
  betAmount : Nat
  actionTimeout : Nat
  gameStatus : Nat
deriving DecidableEq

/-- `DefaultValues.GameDurationInSeconds`. -/
def GameDurationInSeconds : Nat := 3600

/-- The state put in place by `app_initialization_logic` at application
creation: both board masks `0`, status `0`, bet 1000000, every other
key unwritten (an unset integer key reads as `0`). -/
def initialState : GameState :=
  { playerXState := 0
    playerOState := 0
    playerXAddress := none
    playerOAddress := none
    playerTurnAddress := none
    fundsEscrowAddress := none
    betAmount := 1000000
    actionTimeout := 0
    gameStatus := 0 }

/-- `WINING_STATES`: the 8 winning bit patterns (source spelling kept). -/
def WINING_STATES : List Nat := [448, 56, 7, 292, 146, 73, 273, 84]

/-- `has_player_won(state)`: the eight-fold disjunction of
`BitwiseAnd(state, w) == w` over `WINING_STATES`, written with the same
constants the source indexes out of the list. -/
def has_player_won (state : Nat) : Bool :=
  (state &&& 448 == 448) || (state &&& 56 == 56) ||
  (state &&& 7 == 7) || (state &&& 292 == 292) ||
  (state &&& 146 == 146) || (state &&& 73 == 73) ||
  (state &&& 273 == 273) || (state &&& 84 == 84)

/-- `is_tie()`: `Int(511) == BitwiseOr(state_x, state_o)` on the two
stored masks. -/
def is_tie (state_x state_o : Nat) : Bool :=
  511 == (state_x ||| state_o)

/-- `initialize_players_logic` (action `SetupPlayers`): `g1`, `g2` are
`Gtxn[1]` and `Gtxn[2]`, both already payment transactions.  The call
fails when either player address key already has a value, or when the
receiver/amount asserts fail. -/
def initialize_players_logic (st : GameState) (now : Nat) (g1 g2 : PayTxn) :
    Option GameState :=
  if st.playerXAddress.isSome || st.playerOAddress.isSome then
    none
  else if g1.receiver = g2.receiver ∧ g1.amount = st.betAmount ∧
      g2.amount = st.betAmount then
    some { st with
      playerXAddress := some g1.sender
      playerOAddress := some g2.sender
      playerTurnAddress := some g1.sender
      fundsEscrowAddress := some g1.receiver
      actionTimeout := now + GameDurationInSeconds }
  else
    none

/-- `play_action_logic` (action `ActionMove`, a group of size 1):
`arg` is `Btoi(Txn.application_args[1])`.  The TEAL expression
`Int(8) - Btoi(...)` underflows (and the program rejects) when
`arg > 8`, so acceptance forces `arg ≤ 8`; the bit played is
`ShiftLeft(Int(1), 8 - arg)`.  The asserts are the source's five
(bounds, timestamp, status, turn, cell-free-in-both-masks); the
two-way `Cond` dispatches on the sender, and the final
`If(is_tie(), status := 3)` runs on the already-updated masks. -/
def play_action_logic (st : GameState) (now sender arg : Nat) :
    Option GameState :=
  if arg ≤ 8 then
    if now ≤ st.actionTimeout ∧ st.gameStatus = 0 ∧
        st.playerTurnAddress = some sender ∧
        st.playerXState &&& (1 <<< (8 - arg)) = 0 ∧
        st.playerOState &&& (1 <<< (8 - arg)) = 0 then
      if st.playerXAddress = some sender then
        let st1 : GameState := { st with
          playerXState := st.playerXState ||| (1 <<< (8 - arg))
          gameStatus :=
            if has_player_won (st.playerXState ||| (1 <<< (8 - arg)))
            then 1 else st.gameStatus
          playerTurnAddress := st.playerOAddress }
        some (if is_tie st1.playerXState st1.playerOState
              then { st1 with gameStatus := 3 } else st1)
      else if st.playerOAddress = some sender then
        let st1 : GameState := { st with
          playerOState := st.playerOState ||| (1 <<< (8 - arg))
          gameStatus :=
            if has_player_won (st.playerOState ||| (1 <<< (8 - arg)))
            then 2 else st.gameStatus
          playerTurnAddress := st.playerXAddress }
        some (if is_tie st1.playerXState st1.playerOState
              then { st1 with gameStatus := 3 } else st1)
      else none
    else none
  else none

/-- `has_x_won` of `money_refund_logic`:
`(status == 1 ∨ (status == 0 ∧ now > timeout ∧ turn == playerO)) ∧
game_started`, with `game_started = (x_state ≠ 0 ∧ o_state ≠ 0)`. -/
def has_x_won (st : GameState) (now : Nat) : Prop :=
  (st.gameStatus = 1 ∨
    (st.gameStatus = 0 ∧ now > st.actionTimeout ∧
      st.playerTurnAddress = st.playerOAddress)) ∧
  st.playerXState ≠ 0 ∧ st.playerOState ≠ 0

instance (st : GameState) (now : Nat) : Decidable (has_x_won st now) := by
  unfold has_x_won; infer_instance

/-- `has_o_won` of `money_refund_logic`, symmetric to `has_x_won`. -/
def has_o_won (st : GameState) (now : Nat) : Prop :=
  (st.gameStatus = 2 ∨
    (st.gameStatus = 0 ∧ now > st.actionTimeout ∧
      st.playerTurnAddress = st.playerXAddress)) ∧
  st.playerXState ≠ 0 ∧ st.playerOState ≠ 0

instance (st : GameState) (now : Nat) : Decidable (has_o_won st now) := by
  unfold has_o_won; infer_instance

/-- `money_refund_logic` (action `MoneyRefund`), the application side.
`payouts` are the group transactions after the application call
(`Gtxn[1]`, `Gtxn[2]`, ...); indexing past the group end is a TEAL
error, hence `none` on a too-short list.  The `Cond` takes the first
true branch of `has_x_won` / `has_o_won` / `game_is_tie` and errors
when none holds.  `x_withdraw` / `o_withdraw` re-write `GameStatus`;
`tie_withdraw` writes nothing. -/
def money_refund_logic (st : GameState) (now : Nat) (payouts : List PayTxn) :
    Option GameState :=
  match payouts with
  | [] => none
  | g1 :: rest =>
    if st.fundsEscrowAddress = some g1.sender then
      if has_x_won st now then
        if st.playerXAddress = some g1.receiver ∧
            g1.amount = 2 * st.betAmount then
          some { st with gameStatus := 1 }
        else none
      else if has_o_won st now then
        if st.playerOAddress = some g1.receiver ∧
            g1.amount = 2 * st.betAmount then
          some { st with gameStatus := 2 }
        else none
      else if st.gameStatus = 3 then
        match rest with
        | [] => none
        | g2 :: _ =>
          if st.playerXAddress = some g1.receiver ∧
              g1.amount = st.betAmount ∧
              st.fundsEscrowAddress = some g2.sender ∧
              st.playerOAddress = some g2.receiver ∧
              g2.amount = st.betAmount then
            some st
          else none
      else none
    else none

/-- `game_funds_escorw(app_id)` (source spelling kept): the stateless
escrow program, evaluated against the whole group.  `bundleAppId` is
`Gtxn[0].application_id()`; the group size is `payouts.length + 1`.
The `Cond` admits only sizes 2 and 3, and checks fee, `asset_close_to`
and `rekey_to` of the payment transactions — nothing else. -/
def game_funds_escorw (app_id bundleAppId : Nat) (payouts : List PayTxn) :
    Bool :=
  match payouts with
  | [g1] =>
    decide (bundleAppId = app_id) && decide (g1.fee ≤ 1000) &&
    decide (g1.assetCloseTo = 0) && decide (g1.rekeyTo = 0)
  | [g1, g2] =>
    decide (bundleAppId = app_id) && decide (g1.fee ≤ 1000) &&
    decide (g1.assetCloseTo = 0) && decide (g1.rekeyTo = 0) &&
    decide (g2.fee ≤ 1000) && decide (g2.assetCloseTo = 0) &&
    decide (g2.rekeyTo = 0)
  | _ => false

/-- Acceptance of a whole `MoneyRefund` atomic group: the application
call must approve, and every payment spent from the escrow account must
be approved by the escrow's logic signature program. -/
def settle_accepted (app_id : Nat) (st : GameState) (now bundleAppId : Nat)
    (payouts : List PayTxn) : Option GameState :=
  match money_refund_logic st now payouts with
  | none => none
  | some st1 =>
    if payouts.all (fun p =>
        !(decide (st.fundsEscrowAddress = some p.sender)) ||
        game_funds_escorw app_id bundleAppId payouts) then
      some st1
    else none

/-- The states reachable from application creation by accepted
operations: player setup, moves, and settlements. -/
inductive Reachable : GameState → Prop where
  | init : Reachable initialState
  | setup {st st' : GameState} {now : Nat} {g1 g2 : PayTxn} :
      Reachable st → initialize_players_logic st now g1 g2 = some st' →
      Reachable st'
  | move {st st' : GameState} {now sender arg : Nat} :
      Reachable st → play_action_logic st now sender arg = some st' →
      Reachable st'
  | settle {st st' : GameState} {app_id now bid : Nat}
      {payouts : List PayTxn} :
      Reachable st → settle_accepted app_id st now bid payouts = some st' →
      Reachable st'

/-! ### Concrete states and transactions used in closed statements -/

/-- A freshly set-up game: players `1` (X) and `2` (O), escrow `9`,
deadline `100`, X to move, empty board. -/
def exampleFreshState : GameState :=
  ⟨0, 0, some 1, some 2, some 1, some 9, 1000000, 100, 0⟩

/-- `exampleFreshState` after X's accepted move with position argument
`0` (which sets bit `8`, i.e. mask `256`). -/
def exampleAfterFirstMove : GameState :=
  ⟨256, 0, some 1, some 2, some 2, some 9, 1000000, 100, 0⟩

/-- A game one move from completion: X holds bits `{1,2,5,7}` (mask
`166`), O holds bits `{3,4,6,8}` (mask `344`), X to move on the last
free cell, bit `0`.  Neither mask is yet winning, but `166 ||| 1 = 167`
contains the winning triple `7`. -/
def exampleNinthMoveState : GameState :=
  ⟨166, 344, some 1, some 2, some 1, some 9, 1000000, 100, 0⟩

/-- A finished game won by X in play: X holds the top-row triple `448`,
O holds mask `3`, status `1`. -/
def exampleWonState : GameState :=
  ⟨448, 3, some 1, some 2, some 2, some 9, 1000000, 100, 1⟩

/-- The winner payout of `exampleWonState`: escrow `9` pays player `1`
twice the bet. -/
def examplePayoutX : PayTxn := ⟨9, 1, 2000000, 1000, 0, 0⟩

/-- An escrow payment to an unrelated account `777` of an amount tied
to no entitlement. -/
def exampleRoguePayout : PayTxn := ⟨9, 777, 5000000, 1000, 0, 0⟩

/-- Player X's setup funding payment: `1` pays the bet to escrow `9`. -/
def exampleFundX : PayTxn := ⟨1, 9, 1000000, 0, 0, 0⟩

/-- Player O's setup funding payment: `2` pays the bet to escrow `9`. -/
def exampleFundO : PayTxn := ⟨2, 9, 1000000, 0, 0, 0⟩

/-- The state produced by `initialize_players_logic` from
`initialState` at time `10` with `exampleFundX`, `exampleFundO`. -/
def exampleSetupState : GameState :=
  ⟨0, 0, some 1, some 2, some 1, some 9, 1000000, 3610, 0⟩

/-! ### Helper lemmas -/

lemma land_lor_eq_zero (a b c : Nat) (h1 : a &&& c = 0) (h2 : b &&& c = 0) :
    (a ||| b) &&& c = 0 := by
  apply Nat.eq_of_testBit_eq
  intro i
  have t1 := congrArg (fun n => n.testBit i) h1
  have t2 := congrArg (fun n => n.testBit i) h2
  simp only [Nat.testBit_land, Nat.testBit_lor, Nat.zero_testBit] at t1 t2 ⊢
  cases ha : a.testBit i <;> cases hb : b.testBit i <;> cases hc : c.testBit i <;>
    simp_all

lemma lor_shift_land_ne (x k : Nat) : (x ||| 1 <<< k) &&& (1 <<< k) ≠ 0 := by
  intro h
  have t := congrArg (fun n => n.testBit k) h
  simp only [Nat.testBit_land, Nat.testBit_lor, Nat.zero_testBit,
    Nat.shiftLeft_eq, one_mul, Nat.testBit_two_pow_self] at t
  simp at t

/-- Inversion of an accepted move: the position argument was in bounds,
the played cell was free in both masks, exactly one mask gained exactly
that bit, and every other field the claims inspect is as recorded. -/
lemma play_action_inv {st st' : GameState} {now sender arg : Nat}
    (h : play_action_logic st now sender arg = some st') :
    arg ≤ 8 ∧
    st.playerXState &&& (1 <<< (8 - arg)) = 0 ∧
    st.playerOState &&& (1 <<< (8 - arg)) = 0 ∧
    st'.actionTimeout = st.actionTimeout ∧
    ((st'.playerXState = st.playerXState ||| (1 <<< (8 - arg)) ∧
        st'.playerOState = st.playerOState) ∨
      (st'.playerXState = st.playerXState ∧
        st'.playerOState = st.playerOState ||| (1 <<< (8 - arg)))) := by
  unfold play_action_logic at h
  split at h
  case isFalse => exact absurd h (by simp)
  case isTrue harg =>
  split at h
  case isFalse => exact absurd h (by simp)
  case isTrue hcond =>
  obtain ⟨hnow, hstatus, hturn, hx, ho⟩ := hcond
  refine ⟨harg, hx, ho, ?_⟩
  split at h
  · simp only [Option.some.injEq] at h
    subst h
    split <;> simp
  · split at h
    · simp only [Option.some.injEq] at h
      subst h
      split <;> simp
    · exact absurd h (by simp)

/-- Inversion of an accepted setup: the masks are untouched, the
deadline is `now + GameDurationInSeconds`, and the player addresses
are bound to the two funding senders. -/
lemma initialize_players_inv {st st' : GameState} {now : Nat}
    {g1 g2 : PayTxn}
    (h : initialize_players_logic st now g1 g2 = some st') :
    st'.playerXState = st.playerXState ∧
    st'.playerOState = st.playerOState ∧
    st'.actionTimeout = now + GameDurationInSeconds ∧
    st'.playerXAddress = some g1.sender ∧
    st'.playerOAddress = some g2.sender ∧
    st'.playerTurnAddress = some g1.sender := by
  unfold initialize_players_logic at h
  split at h
  · exact absurd h (by simp)
  · split at h
    · simp only [Option.some.injEq] at h
      subst h
      simp
    · exact absurd h (by simp)

/-- Inversion of an accepted settlement: only `gameStatus` can change. -/
lemma settle_accepted_inv {app_id : Nat} {st st' : GameState}
    {now bid : Nat} {payouts : List PayTxn}
    (h : settle_accepted app_id st now bid payouts = some st') :
    st'.playerXState = st.playerXState ∧
    st'.playerOState = st.playerOState ∧
    st'.actionTimeout = st.actionTimeout := by
  unfold settle_accepted at h
  split at h
  case h_1 => exact absurd h (by simp)
  case h_2 st1 heq =>
  split at h
  case isFalse => exact absurd h (by simp)
  case isTrue =>
  simp only [Option.some.injEq] at h
  subst h
  unfold money_refund_logic at heq
  split at heq
  case h_1 => exact absurd heq (by simp)
  case h_2 g1 rest =>
  split at heq
  case isFalse => exact absurd heq (by simp)
  case isTrue =>
  split at heq
  · split at heq
    · simp only [Option.some.injEq] at heq
      subst heq; simp
    · exact absurd heq (by simp)
  · split at heq
    · split at heq
      · simp only [Option.some.injEq] at heq
        subst heq; simp
      · exact absurd heq (by simp)
    · split at heq
      · split at heq
        case h_1 => exact absurd heq (by simp)
        case h_2 =>
        split at heq
        · simp only [Option.some.injEq] at heq
          subst heq; simp
        · exact absurd heq (by simp)
      · exact absurd heq (by simp)

/-! ### Claims -/

/-- Claim C1.  The claim states that a move that both wins and fills
the ninth cell yields status `XWon`, the tie condition being evaluated
only when the win detector reports no win.  The code evaluates
`If(is_tie(), status := 3)` unconditionally after the win check, so at
this input X's ninth move completes the winning triple `7` (the win
detector reports a win on the updated mask and the board is full) yet
the resulting status is `3` (Tie), not `1` (XWon). -/
theorem claim_C1_failing_input :
    has_player_won (exampleNinthMoveState.playerXState ||| (1 <<< (8 - 8))) = true ∧
    (exampleNinthMoveState.playerXState ||| (1 <<< (8 - 8))) |||
        exampleNinthMoveState.playerOState = 511 ∧
    (play_action_logic exampleNinthMoveState 50 1 8).map
        (fun s => s.gameStatus) = some 3 := by
  decide

/-- Claim C2.  The claim states that after one accepted settlement every
further settlement is rejected.  In the code `x_withdraw` merely
re-writes `GameStatus := 1` and changes nothing else, so the state after
a successful winner settlement is the very same state and the identical
bundle is accepted again (here a third party could repeat it until the
escrow is drained). -/
theorem claim_C2_failing_input :
    settle_accepted 7 exampleWonState 50 7 [examplePayoutX] =
        some exampleWonState ∧
    settle_accepted 7 exampleWonState 60 7 [examplePayoutX] =
        some exampleWonState := by
  decide

/-- Claim C3.  The claim states that in an X-entitled state only bundles
with exactly one payout (to `playerX`, of `2 * betAmount`) are accepted.
The application never checks the group size of a `MoneyRefund` call and
the escrow's size-3 branch constrains neither receiver nor amount of
`Gtxn[2]`, so a bundle with a second escrow payout to an unrelated
account of an arbitrary amount is accepted in a won state. -/
theorem claim_C3_failing_input :
    [examplePayoutX, exampleRoguePayout].length = 2 ∧
    settle_accepted 7 exampleWonState 50 7
        [examplePayoutX, exampleRoguePayout] = some exampleWonState := by
  decide

/-- Claim C4: in an `Active` state past the deadline in which some
player has never moved, every settlement bundle is rejected — timeout
forfeiture requires `game_started`, i.e. both masks non-zero. -/
theorem claim_C4_timeout_requires_moves
    (app_id : Nat) (st : GameState) (now bid : Nat) (payouts : List PayTxn)
    (hstatus : st.gameStatus = 0) (hnow : now > st.actionTimeout)
    (hmask : st.playerXState = 0 ∨ st.playerOState = 0) :
    settle_accepted app_id st now bid payouts = none := by
  have happ : money_refund_logic st now payouts = none := by
    cases payouts with
    | nil => rfl
    | cons g1 rest =>
      have hA : ¬ has_x_won st now := by
        rintro ⟨-, hx, ho⟩
        rcases hmask with h | h <;> simp_all
      have hB : ¬ has_o_won st now := by
        rintro ⟨-, hx, ho⟩
        rcases hmask with h | h <;> simp_all
      simp only [money_refund_logic]
      split
      · rw [if_neg (by omega : ¬ st.gameStatus = 3)]
      · rfl
  unfold settle_accepted
  rw [happ]

theorem claim_C4_witness :
    settle_accepted 7 initialState 5 7 [examplePayoutX] = none :=
  claim_C4_timeout_requires_moves 7 initialState 5 7 [examplePayoutX]
    rfl (by decide) (Or.inl rfl)

/-- Claim C5: `xMask &&& oMask = 0` holds in the initial state and in
every state reachable by accepted setup, move and settlement
operations. -/
theorem claim_C5_masks_disjoint (st : GameState) (h : Reachable st) :
    st.playerXState &&& st.playerOState = 0 := by
  induction h with
  | init => rfl
  | setup hr hinit ih =>
    obtain ⟨hx, ho, -⟩ := initialize_players_inv hinit
    rw [hx, ho]; exact ih
  | move hr hm ih =>
    obtain ⟨-, hx0, ho0, -, hcase⟩ := play_action_inv hm
    rcases hcase with ⟨hx, ho⟩ | ⟨hx, ho⟩
    · rw [hx, ho]
      refine land_lor_eq_zero _ _ _ ih ?_
      rw [Nat.land_comm]; exact ho0
    · rw [hx, ho, Nat.land_comm]
      refine land_lor_eq_zero _ _ _ ?_ ?_
      · rw [Nat.land_comm]; exact ih
      · rw [Nat.land_comm]; exact hx0
  | settle hr hs ih =>
    obtain ⟨hx, ho, -⟩ := settle_accepted_inv hs
    rw [hx, ho]; exact ih

theorem claim_C5_witness :
    Reachable initialState ∧
    initialState.playerXState &&& initialState.playerOState = 0 :=
  ⟨Reachable.init, claim_C5_masks_disjoint initialState Reachable.init⟩

/-- Claim C6: `has_player_won m` is true exactly when one of the 8
masks of `WINING_STATES` is a sub-mask of `m`; it is true on each of
the 8 winning masks and false on the empty mask, on every single-bit
mask, and on every winning mask with one of its bits cleared. -/
theorem claim_C6_win_detector :
    (∀ m : Nat, has_player_won m = true ↔ ∃ w ∈ WINING_STATES, m &&& w = w) ∧
    WINING_STATES.all (fun w => has_player_won w) = true ∧
    has_player_won 0 = false ∧
    (List.range 9).all (fun i => !has_player_won (1 <<< i)) = true ∧
    WINING_STATES.all (fun w =>
      (List.range 9).all (fun i =>
        !(w.testBit i) || !has_player_won (w ^^^ (1 <<< i)))) = true := by
  refine ⟨?_, by decide, by decide, by decide, by decide⟩
  intro m
  constructor
  · intro h
    have h' := h
    simp only [has_player_won, Bool.or_eq_true, beq_iff_eq] at h'
    rcases h' with (((((((h | h) | h) | h) | h) | h) | h) | h)
    exacts [⟨448, by decide, h⟩, ⟨56, by decide, h⟩, ⟨7, by decide, h⟩,
      ⟨292, by decide, h⟩, ⟨146, by decide, h⟩, ⟨73, by decide, h⟩,
      ⟨273, by decide, h⟩, ⟨84, by decide, h⟩]
  · rintro ⟨w, hw, hmw⟩
    have hw' : w = 448 ∨ w = 56 ∨ w = 7 ∨ w = 292 ∨ w = 146 ∨ w = 73 ∨
        w = 273 ∨ w = 84 := by simpa [WINING_STATES] using hw
    simp only [has_player_won, Bool.or_eq_true, beq_iff_eq]
    rcases hw' with rfl | rfl | rfl | rfl | rfl | rfl | rfl | rfl <;> tauto

theorem claim_C6_witness :
    has_player_won 273 = true ↔ ∃ w ∈ WINING_STATES, 273 &&& w = w :=
  claim_C6_win_detector.1 273

/-- Claim C7: once an accepted move has marked position `arg`, any
further move on the same `arg`, by either player at any time, is
rejected (the call fails, so no field of the state is written). -/
theorem claim_C7_occupied_cell_rejected
    (st st' : GameState) (now sender arg now2 sender2 : Nat)
    (h : play_action_logic st now sender arg = some st') :
    play_action_logic st' now2 sender2 arg = none := by
  obtain ⟨harg, hx0, ho0, -, hcase⟩ := play_action_inv h
  have hno : ¬ (now2 ≤ st'.actionTimeout ∧ st'.gameStatus = 0 ∧
      st'.playerTurnAddress = some sender2 ∧
      st'.playerXState &&& (1 <<< (8 - arg)) = 0 ∧
      st'.playerOState &&& (1 <<< (8 - arg)) = 0) := by
    rintro ⟨-, -, -, hx2, ho2⟩
    rcases hcase with ⟨hx, ho⟩ | ⟨hx, ho⟩
    · rw [hx] at hx2
      exact lor_shift_land_ne _ _ hx2
    · rw [ho] at ho2
      exact lor_shift_land_ne _ _ ho2
  unfold play_action_logic
  rw [if_pos harg, if_neg hno]

theorem claim_C7_witness :
    play_action_logic exampleFreshState 50 1 0 = some exampleAfterFirstMove ∧
    play_action_logic exampleAfterFirstMove 60 2 0 = none :=
  ⟨by decide,
   claim_C7_occupied_cell_rejected exampleFreshState exampleAfterFirstMove
     50 1 0 60 2 (by decide)⟩

/-- Claim C8, counterexample.  The claim states that the bit set by an
accepted `ApplyMove` with position argument `p` is bit `p`.  From the
empty board of `exampleFreshState`, X's accepted move with argument `0`
produces mask `256`: bit `0` is clear and bit `8` is set. -/
theorem claim_C8_counterexample :
    (play_action_logic exampleFreshState 50 1 0).map
        (fun s => s.playerXState) = some 256 ∧
    Nat.testBit 256 0 = false ∧ Nat.testBit 256 8 = true := by
  decide

/-- Claim C8 as amended: the bit set by an accepted move with position
argument `arg` is bit `8 - arg` (the source computes
`position_index = Int(8) - Btoi(args[1])` and shifts by it), applied
uniformly to whichever mask is the acting player's. -/
theorem claim_C8_bit_mapping
    (st st' : GameState) (now sender arg : Nat)
    (h : play_action_logic st now sender arg = some st') :
    st'.playerXState ||| st'.playerOState =
      (st.playerXState ||| st.playerOState) ||| (1 <<< (8 - arg)) := by
  obtain ⟨-, -, -, -, hcase⟩ := play_action_inv h
  rcases hcase with ⟨hx, ho⟩ | ⟨hx, ho⟩ <;> rw [hx, ho]
  · rw [Nat.lor_assoc, Nat.lor_comm (1 <<< (8 - arg)) st.playerOState,
      ← Nat.lor_assoc]
  · rw [Nat.lor_assoc]

theorem claim_C8_witness :
    exampleAfterFirstMove.playerXState ||| exampleAfterFirstMove.playerOState =
      (exampleFreshState.playerXState ||| exampleFreshState.playerOState) |||
        (1 <<< (8 - 0)) :=
  claim_C8_bit_mapping exampleFreshState exampleAfterFirstMove 50 1 0
    (by decide)

/-- Claim C9: the deadline (`ActionTimeout`) is written exactly once —
setup writes `now + GameDurationInSeconds`, a second setup against the
resulting state is rejected, and accepted moves and settlements leave
the field unchanged. -/
theorem claim_C9_deadline_once :
    (∀ (st : GameState) (now : Nat) (g1 g2 : PayTxn) (st' : GameState),
      initialize_players_logic st now g1 g2 = some st' →
      st'.actionTimeout = now + GameDurationInSeconds) ∧
    (∀ (st : GameState) (now : Nat) (g1 g2 : PayTxn) (st' : GameState),
      initialize_players_logic st now g1 g2 = some st' →
      ∀ (now2 : Nat) (h1 h2 : PayTxn),
        initialize_players_logic st' now2 h1 h2 = none) ∧
    (∀ (st : GameState) (now sender arg : Nat) (st' : GameState),
      play_action_logic st now sender arg = some st' →
      st'.actionTimeout = st.actionTimeout) ∧
    (∀ (app_id : Nat) (st : GameState) (now bid : Nat)
      (payouts : List PayTxn) (st' : GameState),
      settle_accepted app_id st now bid payouts = some st' →
      st'.actionTimeout = st.actionTimeout) := by
  refine ⟨?_, ?_, ?_, ?_⟩
  · intro st now g1 g2 st' h
    exact (initialize_players_inv h).2.2.1
  · intro st now g1 g2 st' h now2 h1 h2
    have hx : st'.playerXAddress = some g1.sender :=
      (initialize_players_inv h).2.2.2.1
    have hcond : (st'.playerXAddress.isSome || st'.playerOAddress.isSome) =
        true := by simp [hx]
    unfold initialize_players_logic
    rw [if_pos hcond]
  · intro st now sender arg st' h
    exact (play_action_inv h).2.2.2.1
  · intro a st now b ps st' h
    exact (settle_accepted_inv h).2.2

theorem claim_C9_witness :
    exampleSetupState.actionTimeout = 10 + GameDurationInSeconds ∧
    initialize_players_logic exampleSetupState 99 exampleFundX exampleFundO =
      none ∧
    exampleAfterFirstMove.actionTimeout = exampleFreshState.actionTimeout ∧
    exampleWonState.actionTimeout = exampleWonState.actionTimeout :=
  ⟨claim_C9_deadline_once.1 initialState 10 exampleFundX exampleFundO
      exampleSetupState (by decide),
   claim_C9_deadline_once.2.1 initialState 10 exampleFundX exampleFundO
      exampleSetupState (by decide) 99 exampleFundX exampleFundO,
   claim_C9_deadline_once.2.2.1 exampleFreshState 50 1 0
      exampleAfterFirstMove (by decide),
   claim_C9_deadline_once.2.2.2 7 exampleWonState 50 7 [examplePayoutX]
      exampleWonState (by decide)⟩

/-- Claim C10: setup imposes no distinctness on the two funding senders;
a bundle whose two funding payments share one sender `s` (same receiver,
both paying the bet) is accepted and binds `playerX`, `playerO` and the
turn all to `s`. -/
theorem claim_C10_same_identity_both_seats
    (st : GameState) (now s r : Nat)
    (hx : st.playerXAddress = none) (ho : st.playerOAddress = none) :
    ∃ st', initialize_players_logic st now
        ⟨s, r, st.betAmount, 0, 0, 0⟩ ⟨s, r, st.betAmount, 0, 0, 0⟩ =
          some st' ∧
      st'.playerXAddress = some s ∧ st'.playerOAddress = some s ∧
      st'.playerTurnAddress = some s := by
  refine ⟨{ st with
      playerXAddress := some s
      playerOAddress := some s
      playerTurnAddress := some s
      fundsEscrowAddress := some r
      actionTimeout := now + GameDurationInSeconds }, ?_, rfl, rfl, rfl⟩
  unfold initialize_players_logic
  simp [hx, ho]

theorem claim_C10_witness :
    ∃ st', initialize_players_logic initialState 10
        ⟨5, 9, initialState.betAmount, 0, 0, 0⟩
        ⟨5, 9, initialState.betAmount, 0, 0, 0⟩ = some st' ∧
      st'.playerXAddress = some 5 ∧ st'.playerOAddress = some 5 ∧
      st'.playerTurnAddress = some 5 :=
  claim_C10_same_identity_both_seats initialState 10 5 9 rfl rfl

end TicTacToe
